import Mathlib

/-!
Shallow embedding of the decision and aggregation logic of the `dupr`
repository: the category-based page access check (`TeachingPage.serve` in
`src/teachings/models.py`), the practice-tracker form validation
(`LogEntryForm.clean` in `src/tracker/forms.py`), the dashboard aggregation
(`DashboardView.get_context_data` in `src/tracker/views.py`), and the
tracker models (`src/tracker/models.py`).

Note on the tracker models: `src/tracker/models.py` holds an earlier
iteration of the tracker (`ActivityDefinition` with a per-definition
`unit_multiplier`, `LogEntry` with `quantity_submitted`), while
`src/tracker/forms.py` and `src/tracker/views.py` reference the current
malas-based model (`PracticeDefinition`, `LogEntry` with `malas_submitted`,
`time_submitted_hours`, `time_submitted_minutes`) whose model file is not in
the source tree.  Both are embedded below; the definitions that stand in for
the missing current model file are marked `Modelled from the spec:`.
-/

namespace Dupr

/-! ## Access control: `TeachingPage.serve` (src/teachings/models.py) -/

/-- A user as seen by `TeachingPage.serve`: the `is_authenticated`,
`is_superuser` and `is_staff` flags, and the user's set of assigned
category ids (`set(request.user.categories.all())`). -/
structure Viewer where
  is_authenticated : Bool
  is_superuser : Bool
  is_staff : Bool
  categories : Finset Nat

/-- A teaching page as seen by `serve`: its set of assigned category ids
(`set(self.categories.all())`). -/
structure TeachingPage where
  categories : Finset Nat

/-- Elevated access as checked by `serve`:
`request.user.is_superuser or request.user.is_staff`. -/
def Viewer.hasElevatedAccess (v : Viewer) : Bool :=
  v.is_superuser || v.is_staff

/-- The access decision taken by `TeachingPage.serve`
(src/teachings/models.py lines 76-107): `true` means the page is served,
`false` means the 403 response is rendered.  The branches appear in the
source order: empty page-category set, unauthenticated, superuser/staff,
category intersection. -/
def canView (user : Viewer) (page : TeachingPage) : Bool :=
  if page.categories = ∅ then true
  else if user.is_authenticated = false then false
  else if user.is_superuser || user.is_staff then true
  else if user.categories ∩ page.categories = ∅ then false
  else true

/-! ## Form validation: `LogEntryForm.clean` (src/tracker/forms.py lines 68-104)

The three optional integer fields of the form, after per-field cleaning
(`required=False` fields clean an empty submission to `None`, embedded as
`none`). -/

/-- The form's `cleaned_data` for the three numeric fields. -/
structure Candidate where
  malas_submitted : Option Int
  time_submitted_hours : Option Int
  time_submitted_minutes : Option Int
deriving DecidableEq

/-- The two cross-field errors `LogEntryForm.clean` can produce: the
`no_data_submitted` `ValidationError` and the minutes-range error added
with `add_error`. -/
inductive FormError where
  | no_data_submitted
  | minutes_out_of_range
deriving DecidableEq

/-- `x is not None and x > 0`, the `has_malas`/`has_hours`/`has_minutes`
pattern of `clean`. -/
def posOpt : Option Int → Bool
  | some x => decide (0 < x)
  | none => false

/-- `minutes is not None and (minutes < 0 or minutes > 59)`. -/
def minutesOutOfRange : Option Int → Bool
  | some m => decide (m < 0) || decide (59 < m)
  | none => false

/-- `LogEntryForm.clean` (src/tracker/forms.py lines 68-104).  A raised
`ValidationError` and an `add_error` both make the form invalid; invalidity
is embedded as `Except.error` carrying the first error recorded (the
`no_data_submitted` raise precedes the minutes-range `add_error` in the
source).  On success the returned `cleaned_data` defaults a missing time
component to 0 only when the other time component is present and positive,
exactly as in the source (both conditions read the original values). -/
def LogEntryForm.clean (d : Candidate) : Except FormError Candidate :=
  if (posOpt d.malas_submitted || posOpt d.time_submitted_hours
      || posOpt d.time_submitted_minutes) = false then
    Except.error FormError.no_data_submitted
  else if minutesOutOfRange d.time_submitted_minutes = true then
    Except.error FormError.minutes_out_of_range
  else
    Except.ok
      { malas_submitted := d.malas_submitted
        time_submitted_hours :=
          if posOpt d.time_submitted_minutes = true ∧ d.time_submitted_hours = none
          then some 0 else d.time_submitted_hours
        time_submitted_minutes :=
          if posOpt d.time_submitted_hours = true ∧ d.time_submitted_minutes = none
          then some 0 else d.time_submitted_minutes }

/-! ## Dashboard aggregation: `DashboardView.get_context_data`
(src/tracker/views.py lines 59-79) -/

/-- A stored log entry row as read by the dashboard aggregation: the three
optional non-negative numeric columns (`NULL` embedded as `none`). -/
structure LogEntryRow where
  malas_submitted : Option Nat
  time_submitted_hours : Option Nat
  time_submitted_minutes : Option Nat
deriving DecidableEq

/-- One record of `activity_summary_data` (the numeric fields). -/
structure ActivitySummary where
  total_malas_submitted : Nat
  total_mantras : Nat
  total_practice_hours : Nat
  total_practice_minutes : Nat
  has_entries : Bool
deriving DecidableEq

/-- The per-practice aggregation of src/tracker/views.py lines 61-79 over
the log entries of one `(user, user_activity)` pair.
`Coalesce(Sum(col), 0)` — SQL `SUM` skips `NULL`s and `Coalesce` maps an
empty/all-`NULL` sum to 0 — is embedded as summing `Option.getD 0`;
`logs.exists()` as list non-emptiness. -/
def summarize (logs : List LogEntryRow) : ActivitySummary :=
  let total_malas_submitted := (logs.map (fun e => e.malas_submitted.getD 0)).sum
  let total_mantras := total_malas_submitted * 108
  let total_hours := (logs.map (fun e => e.time_submitted_hours.getD 0)).sum
  let total_minutes_from_min_field :=
    (logs.map (fun e => e.time_submitted_minutes.getD 0)).sum
  let grand_total_minutes := total_hours * 60 + total_minutes_from_min_field
  { total_malas_submitted := total_malas_submitted
    total_mantras := total_mantras
    total_practice_hours := grand_total_minutes / 60
    total_practice_minutes := grand_total_minutes % 60
    has_entries := decide (logs ≠ []) }

/-! ## Tracker models (src/tracker/models.py) -/

/-- `ActivityType` (src/tracker/models.py lines 15-42): the slug and the
`allow_user_defined_activities` flag, the fields read by the model logic. -/
structure ActivityType where
  slug : String
  allow_user_defined_activities : Bool
deriving DecidableEq

/-- `ActivityDefinition` (src/tracker/models.py lines 45-85): its activity
type and the per-definition `unit_multiplier` (a `DecimalField`, embedded
as a rational). -/
structure ActivityDefinition where
  activity_type : ActivityType
  unit_multiplier : Rat
deriving DecidableEq

/-- `UserActivity` (src/tracker/models.py lines 90-166): the owning user
(by id), the optional link to a predefined `ActivityDefinition`, the
`custom_name` (a `blank=True` `CharField`, so "unset" is the empty string,
matching Python truthiness in `clean`), the activity type, and the active
flag. -/
structure UserActivity where
  user : Nat
  definition : Option ActivityDefinition
  custom_name : String
  activity_type : ActivityType
  is_active : Bool
deriving DecidableEq

/-- The four `ValidationError`s `UserActivity.clean` can raise, in source
order. -/
inductive UserActivityCleanError where
  | both_predefined_and_custom
  | neither_predefined_nor_custom
  | custom_not_allowed
  | type_mismatch
deriving DecidableEq

/-- `UserActivity.clean` (src/tracker/models.py lines 126-135): `none`
means validation passes, `some e` the first `ValidationError` raised. -/
def UserActivity.clean (ua : UserActivity) : Option UserActivityCleanError :=
  if ua.definition.isSome ∧ ua.custom_name ≠ "" then
    some UserActivityCleanError.both_predefined_and_custom
  else if ua.definition.isNone ∧ ua.custom_name = "" then
    some UserActivityCleanError.neither_predefined_nor_custom
  else if ua.definition.isNone ∧ ua.custom_name ≠ ""
      ∧ ua.activity_type.allow_user_defined_activities = false then
    some UserActivityCleanError.custom_not_allowed
  else if (ua.definition.all
      (fun d => decide (d.activity_type = ua.activity_type))) = false then
    some UserActivityCleanError.type_mismatch
  else
    none

/-- `UserActivity.get_unit_multiplier` (src/tracker/models.py lines
150-156): the definition's multiplier if linked, else 108 for custom
entries under the `accumulations` type, else 1. -/
def UserActivity.get_unit_multiplier (ua : UserActivity) : Rat :=
  match ua.definition with
  | some d => d.unit_multiplier
  | none => if ua.activity_type.slug = "accumulations" then 108 else 1

/-- `LogEntry` (src/tracker/models.py lines 169-220): the tracked-activity
link (a non-nullable foreign key, so embedded as always present), the
denormalized `user`, and the two decimal quantity columns. -/
structure LogEntry where
  user_activity : UserActivity
  user : Nat
  quantity_submitted : Rat
  calculated_total : Rat
deriving DecidableEq

/-- `LogEntry.save` (src/tracker/models.py lines 206-212): re-derives the
denormalized `user` from `user_activity` (the `if self.user_activity:`
guard is always taken, the foreign key being non-nullable) and recomputes
`calculated_total` before the row is written. -/
def LogEntry.save (e : LogEntry) : LogEntry :=
  { e with
    user := e.user_activity.user
    calculated_total := e.quantity_submitted * e.user_activity.get_unit_multiplier }

/-! ## Current-design storage derivation (model file absent from src/) -/

/-- Modelled from the spec: `PracticeDefinition`, the current replacement of
`ActivityDefinition`, is referenced by src/tracker/forms.py and
src/tracker/views.py but its model file is not in the source tree.  Spec
section 3: identity slug, a practice-kind tag, an active flag — and no
per-definition unit multiplier. -/
structure PracticeDefinition where
  slug : String
  practice_type : String
  is_active : Bool
deriving DecidableEq

/-- Modelled from the spec: `TrackedPractice` (the current `UserActivity`),
section 3: owning viewer identity, referenced `PracticeDefinition`, active
flag. -/
structure TrackedPractice where
  owner : Nat
  definition : PracticeDefinition
  is_active : Bool
deriving DecidableEq

/-- Modelled from the spec: the stored log entry of the current design,
section 3/4.3: denormalized owner, the three optional numeric fields, and
the derived `mantras` value. -/
structure StoredEntry where
  owner : Nat
  malas : Option Nat
  hours : Option Nat
  minutes : Option Nat
  mantras : Nat
deriving DecidableEq

/-- Modelled from the spec: the current-design write path
`prepareForStorage` (the malas-based `LogEntry.save`), absent from src/.
Spec section 4.3: `StoredEntry.owner := trackedPractice.owner` (always
overridden) and `StoredEntry.mantras := malas × 108` (0 if malas absent),
108 a fixed constant — matching the hardcoded
`total_mantras = total_malas_submitted * 108` of src/tracker/views.py
lines 62-63. -/
def prepareForStorage (e : LogEntryRow) (tp : TrackedPractice) : StoredEntry :=
  { owner := tp.owner
    malas := e.malas_submitted
    hours := e.time_submitted_hours
    minutes := e.time_submitted_minutes
    mantras := (e.malas_submitted.getD 0) * 108 }

/-! ## Starting to track a practice: `UserActivityAddPracticeView.post`
(src/tracker/views.py lines 229-262) -/

/-- The outcome surfaced by the view: `created` (the success message) or
`already_tracked` (the distinct warning issued from the
`except IntegrityError` handler). -/
inductive AddPracticeOutcome where
  | created
  | already_tracked
deriving DecidableEq

/-- `UserActivity.objects.create(user=..., definition=...)` inside the
`try` of `UserActivityAddPracticeView.post` (src/tracker/views.py lines
237-247).  The store is the list of existing `(user, definition)` rows;
`unique_together = [['user', 'definition'], ...]`
(src/tracker/models.py lines 161-166) makes the insert fail with
`IntegrityError` when the pair already exists, which the view catches
separately from other exceptions and reports as already-tracked. -/
def addPractice (rows : List (Nat × Nat)) (user defn : Nat) :
    List (Nat × Nat) × AddPracticeOutcome :=
  if (user, defn) ∈ rows then (rows, AddPracticeOutcome.already_tracked)
  else (rows ++ [(user, defn)], AddPracticeOutcome.created)

/-! ## Helper lemmas -/

/-- Summing a pointwise sum of two `Nat`-valued maps over a list splits into
the two separate sums. -/
theorem sum_map_add_split {α : Type} (l : List α) (f g : α → Nat) :
    (l.map (fun x => f x + g x)).sum = (l.map f).sum + (l.map g).sum := by
  induction l with
  | nil => simp
  | cons a t ih => simp [ih]; ring

/-- Summing a map scaled by a constant factors the constant out. -/
theorem sum_map_mul_right {α : Type} (l : List α) (f : α → Nat) (c : Nat) :
    (l.map (fun x => f x * c)).sum = (l.map f).sum * c := by
  induction l with
  | nil => simp
  | cons a t ih => simp [ih]; ring

/-! ## Claim theorems -/

/-- Claim C1: for every authenticated viewer without elevated access and
every content item whose category set is non-empty, `canView` returns
`true` iff the intersection of the viewer's category set and the item's
category set is non-empty. -/
theorem canView_nonelevated_iff_overlap (v : Viewer) (c : TeachingPage)
    (hauth : v.is_authenticated = true)
    (helev : v.hasElevatedAccess = false)
    (hcat : c.categories ≠ ∅) :
    canView v c = true ↔ (v.categories ∩ c.categories).Nonempty := by
  have hor : (v.is_superuser || v.is_staff) = false := helev
  rw [Bool.or_eq_false_iff] at hor
  by_cases hi : v.categories ∩ c.categories = ∅ <;>
    simp [canView, hcat, hauth, hor.1, hor.2, hi, Finset.nonempty_iff_ne_empty]

/-- Claim C1 witness: a concrete authenticated, non-elevated viewer with
categories `{1}` and a page with categories `{1, 2}`. -/
theorem canView_nonelevated_iff_overlap_witness :
    (Viewer.mk true false false {1}).is_authenticated = true ∧
    (Viewer.mk true false false {1}).hasElevatedAccess = false ∧
    (TeachingPage.mk {1, 2}).categories ≠ ∅ ∧
    (canView (Viewer.mk true false false {1}) (TeachingPage.mk {1, 2}) = true ↔
      ((Viewer.mk true false false {1}).categories ∩
        (TeachingPage.mk {1, 2}).categories).Nonempty) :=
  ⟨rfl, rfl, by decide,
    canView_nonelevated_iff_overlap (Viewer.mk true false false {1})
      (TeachingPage.mk {1, 2}) rfl rfl (by decide)⟩

/-- Claim C7: for every content item whose category set is empty, `canView`
returns `true` for every viewer, including unauthenticated viewers and
viewers with an empty category set. -/
theorem canView_public_page (v : Viewer) (c : TeachingPage)
    (h : c.categories = ∅) : canView v c = true := by
  simp [canView, h]

/-- Claim C7 witness: an unauthenticated viewer with an empty category set
viewing a page with no categories. -/
theorem canView_public_page_witness :
    (TeachingPage.mk ∅).categories = ∅ ∧
    canView (Viewer.mk false false false ∅) (TeachingPage.mk ∅) = true :=
  ⟨rfl, canView_public_page (Viewer.mk false false false ∅) (TeachingPage.mk ∅) rfl⟩

/-- Claim C8: for every authenticated viewer with elevated access, `canView`
returns `true` for every content item, regardless of category overlap. -/
theorem canView_elevated (v : Viewer) (c : TeachingPage)
    (hauth : v.is_authenticated = true)
    (helev : v.hasElevatedAccess = true) :
    canView v c = true := by
  have hor : (v.is_superuser || v.is_staff) = true := helev
  by_cases hpc : c.categories = ∅ <;> simp [canView, hpc, hauth, hor]

/-- Claim C8 witness: an authenticated staff viewer with no categories
viewing a category-gated page with categories `{1}`. -/
theorem canView_elevated_witness :
    (Viewer.mk true false true ∅).is_authenticated = true ∧
    (Viewer.mk true false true ∅).hasElevatedAccess = true ∧
    canView (Viewer.mk true false true ∅) (TeachingPage.mk {1}) = true :=
  ⟨rfl, rfl,
    canView_elevated (Viewer.mk true false true ∅) (TeachingPage.mk {1}) rfl rfl⟩

/-- Claim C2: over any list of log entries of one (viewer, trackedPractice)
pair, `summarize` returns totalMalas = the sum of malas (absent as 0),
totalMantras = totalMalas × 108, totalHours/totalMinutes = the integer
div/mod by 60 of the grand total of `hours×60 + minutes`, and hasEntries
true iff the list is non-empty; in particular over
`[{malas:2},{hours:1,minutes:45},{malas:3,hours:0,minutes:20}]` it yields
totalMalas=5, totalMantras=540, totalHours=2, totalMinutes=5. -/
theorem summarize_spec :
    (∀ logs : List LogEntryRow,
      (summarize logs).total_malas_submitted
          = (logs.map (fun e => e.malas_submitted.getD 0)).sum ∧
      (summarize logs).total_mantras
          = (logs.map (fun e => e.malas_submitted.getD 0)).sum * 108 ∧
      (summarize logs).total_practice_hours
          = (logs.map (fun e =>
              e.time_submitted_hours.getD 0 * 60 + e.time_submitted_minutes.getD 0)).sum / 60 ∧
      (summarize logs).total_practice_minutes
          = (logs.map (fun e =>
              e.time_submitted_hours.getD 0 * 60 + e.time_submitted_minutes.getD 0)).sum % 60 ∧
      ((summarize logs).has_entries = true ↔ logs ≠ [])) ∧
    summarize [⟨some 2, none, none⟩, ⟨none, some 1, some 45⟩, ⟨some 3, some 0, some 20⟩]
      = ⟨5, 540, 2, 5, true⟩ := by
  constructor
  · intro logs
    have key : (logs.map (fun e =>
          e.time_submitted_hours.getD 0 * 60 + e.time_submitted_minutes.getD 0)).sum
        = (logs.map (fun e => e.time_submitted_hours.getD 0)).sum * 60
          + (logs.map (fun e => e.time_submitted_minutes.getD 0)).sum := by
      rw [sum_map_add_split logs (fun e => e.time_submitted_hours.getD 0 * 60)
        (fun e => e.time_submitted_minutes.getD 0),
        sum_map_mul_right logs (fun e => e.time_submitted_hours.getD 0) 60]
    refine ⟨rfl, rfl, ?_, ?_, ?_⟩ <;> simp [summarize, key]
  · decide

/-- Claim C3: the entry save path always re-derives the stored entry's owner
from the tracked practice — `LogEntry.save` sets `user` to
`user_activity.user` whatever owner value the caller put on the entry. -/
theorem save_overrides_owner :
    ∀ (e : LogEntry) (spoofed : Nat),
      (LogEntry.save { e with user := spoofed }).user = e.user_activity.user ∧
      (LogEntry.save e).user = e.user_activity.user :=
  fun _ _ => ⟨rfl, rfl⟩

/-- Claim C4 counterexample: `clean` on `{malas:5}` succeeds but returns the
candidate with `hours` and `minutes` still unset (`none`), not defined and
equal to 0 as the claim states. -/
theorem clean_malas_only_counterexample :
    LogEntryForm.clean ⟨some 5, none, none⟩ = Except.ok ⟨some 5, none, none⟩ ∧
    (⟨some 5, none, none⟩ : Candidate).time_submitted_hours ≠ some 0 ∧
    (⟨some 5, none, none⟩ : Candidate).time_submitted_minutes ≠ some 0 :=
  ⟨rfl, by decide, by decide⟩

/-- Claim C4 (amended): for every candidate with malas present and positive
and both time components missing, `clean` succeeds and returns the candidate
unchanged — `hours` and `minutes` remain unset; the 0-defaulting happens
only when the other time component is present and positive. -/
theorem clean_malas_only_leaves_time_unset (d : Candidate)
    (hm : posOpt d.malas_submitted = true)
    (hh : d.time_submitted_hours = none)
    (hmin : d.time_submitted_minutes = none) :
    LogEntryForm.clean d = Except.ok d := by
  obtain ⟨m, h, mi⟩ := d
  simp only at hh hmin
  subst hh
  subst hmin
  simp only at hm
  have hnone : posOpt none = false := rfl
  have hmo : minutesOutOfRange none = false := rfl
  simp [LogEntryForm.clean, hm, hnone, hmo]

/-- Claim C4 (amended) witness: the concrete candidate `{malas:5}`. -/
theorem clean_malas_only_leaves_time_unset_witness :
    posOpt (Candidate.mk (some 5) none none).malas_submitted = true ∧
    (Candidate.mk (some 5) none none).time_submitted_hours = none ∧
    (Candidate.mk (some 5) none none).time_submitted_minutes = none ∧
    LogEntryForm.clean (Candidate.mk (some 5) none none)
      = Except.ok (Candidate.mk (some 5) none none) :=
  ⟨rfl, rfl, rfl,
    clean_malas_only_leaves_time_unset (Candidate.mk (some 5) none none) rfl rfl rfl⟩

/-- Claim C5: `clean` rejects with the `no_data_submitted` error iff none of
malas, hours, minutes is positive; in particular the all-explicit-zero
submission `{malas:0, hours:0, minutes:0}` is rejected. -/
theorem clean_no_data_iff_nothing_positive :
    (∀ d : Candidate,
      LogEntryForm.clean d = Except.error FormError.no_data_submitted ↔
        (posOpt d.malas_submitted = false ∧ posOpt d.time_submitted_hours = false
          ∧ posOpt d.time_submitted_minutes = false)) ∧
    LogEntryForm.clean ⟨some 0, some 0, some 0⟩
      = Except.error FormError.no_data_submitted := by
  constructor
  · intro d
    constructor
    · intro h
      unfold LogEntryForm.clean at h
      split at h
      · rename_i hcond
        simpa [Bool.or_eq_false_iff, and_assoc] using hcond
      · split at h
        · exact FormError.noConfusion (Except.error.inj h)
        · exact Except.noConfusion h
    · rintro ⟨h1, h2, h3⟩
      simp [LogEntryForm.clean, h1, h2, h3]
  · rfl

/-- Claim C6: in the current design the derived mantras value of a stored
entry is `malas × 108` (0 when malas is absent) with 108 a fixed constant:
the same entry yields the same mantras under any tracked practice, hence
under any `PracticeDefinition`; and the dashboard (src/tracker/views.py
lines 62-63) likewise computes totalMantras as totalMalas times the
hardcoded 108. -/
theorem mantras_fixed_multiplier :
    (∀ (e : LogEntryRow) (tp tp' : TrackedPractice),
      (prepareForStorage e tp).mantras = e.malas_submitted.getD 0 * 108 ∧
      (e.malas_submitted = none → (prepareForStorage e tp).mantras = 0) ∧
      (prepareForStorage e tp).mantras = (prepareForStorage e tp').mantras) ∧
    (∀ logs : List LogEntryRow,
      (summarize logs).total_mantras = (summarize logs).total_malas_submitted * 108) :=
  ⟨fun e tp tp' =>
    ⟨rfl, fun h => by simp [prepareForStorage, h], rfl⟩,
  fun _ => rfl⟩

/-- Claim C9: when the (user, definition) pair is not yet tracked, the first
create succeeds; a second attempt on the resulting store is surfaced as the
distinct already-tracked outcome, leaves the store unchanged, and exactly
one row for the pair exists afterward. -/
theorem addPractice_duplicate (rows : List (Nat × Nat)) (u d : Nat)
    (h : (u, d) ∉ rows) :
    (addPractice rows u d).2 = AddPracticeOutcome.created ∧
    (addPractice (addPractice rows u d).1 u d).2 = AddPracticeOutcome.already_tracked ∧
    (addPractice (addPractice rows u d).1 u d).1 = (addPractice rows u d).1 ∧
    ((addPractice (addPractice rows u d).1 u d).1).count (u, d) = 1 := by
  have h1 : addPractice rows u d = (rows ++ [(u, d)], AddPracticeOutcome.created) := by
    simp [addPractice, h]
  have hmem : (u, d) ∈ rows ++ [(u, d)] := by simp
  have h2 : addPractice (rows ++ [(u, d)]) u d
      = (rows ++ [(u, d)], AddPracticeOutcome.already_tracked) := by
    simp [addPractice, hmem]
  rw [h1]
  simp only [h2]
  refine ⟨trivial, trivial, trivial, ?_⟩
  rw [List.count_append, List.count_eq_zero.mpr h]
  simp

/-- Claim C9 witness: user 1 starts tracking definition 2 twice from an
empty store. -/
theorem addPractice_duplicate_witness :
    ((1, 2) ∉ ([] : List (Nat × Nat))) ∧
    ((addPractice [] 1 2).2 = AddPracticeOutcome.created ∧
      (addPractice (addPractice [] 1 2).1 1 2).2 = AddPracticeOutcome.already_tracked ∧
      (addPractice (addPractice [] 1 2).1 1 2).1 = (addPractice [] 1 2).1 ∧
      ((addPractice (addPractice [] 1 2).1 1 2).1).count (1, 2) = 1) :=
  ⟨by decide, addPractice_duplicate [] 1 2 (by decide)⟩

/-- Claim C10: every `UserActivity` that passes `clean` has exactly one of
(definition, custom_name) set; a set custom_name implies the activity type
allows user-defined activities; a set definition implies the activity type
equals the definition's type. -/
theorem userActivity_clean_invariant (ua : UserActivity)
    (h : ua.clean = none) :
    ((ua.definition.isSome = true ∧ ua.custom_name = "") ∨
      (ua.definition = none ∧ ua.custom_name ≠ "")) ∧
    (ua.custom_name ≠ "" → ua.activity_type.allow_user_defined_activities = true) ∧
    (ua.definition.all (fun d => decide (d.activity_type = ua.activity_type)) = true) := by
  unfold UserActivity.clean at h
  split at h
  · exact Option.noConfusion h
  · split at h
    · exact Option.noConfusion h
    · split at h
      · exact Option.noConfusion h
      · split at h
        · exact Option.noConfusion h
        · rename_i hc1 hc2 hc3 hc4
          push_neg at hc1 hc2 hc3
          rcases hd : ua.definition with _ | dfn
          · have hname : ua.custom_name ≠ "" := by
              intro hn
              exact (hc2 (by simp [hd]) hn).elim
            refine ⟨Or.inr ⟨rfl, hname⟩, fun _ => ?_, by simp [hd]⟩
            have hne := hc3 (by simp [hd]) hname
            cases hab : ua.activity_type.allow_user_defined_activities
            · exact (hne hab).elim
            · rfl
          · have hname : ua.custom_name = "" := hc1 (by simp [hd])
            rw [hd] at hc4
            refine ⟨Or.inl ⟨by simp, hname⟩, fun hn => (hn hname).elim, ?_⟩
            cases hall : (Option.all
                (fun d => decide (d.activity_type = ua.activity_type)) (some dfn))
            · exact (hc4 hall).elim
            · rfl

/-- Claim C10 witness: a user activity linked to a predefined definition,
with empty custom name and matching activity type, passes `clean` and
satisfies the invariant. -/
theorem userActivity_clean_invariant_witness :
    UserActivity.clean
      ⟨1, some ⟨⟨"accumulations", true⟩, 108⟩, "", ⟨"accumulations", true⟩, true⟩ = none ∧
    ((((⟨1, some ⟨⟨"accumulations", true⟩, 108⟩, "", ⟨"accumulations", true⟩, true⟩ :
        UserActivity).definition.isSome = true ∧
        (⟨1, some ⟨⟨"accumulations", true⟩, 108⟩, "", ⟨"accumulations", true⟩, true⟩ :
          UserActivity).custom_name = "") ∨
      ((⟨1, some ⟨⟨"accumulations", true⟩, 108⟩, "", ⟨"accumulations", true⟩, true⟩ :
          UserActivity).definition = none ∧
        (⟨1, some ⟨⟨"accumulations", true⟩, 108⟩, "", ⟨"accumulations", true⟩, true⟩ :
          UserActivity).custom_name ≠ "")) ∧
      ((⟨1, some ⟨⟨"accumulations", true⟩, 108⟩, "", ⟨"accumulations", true⟩, true⟩ :
          UserActivity).custom_name ≠ "" →
        (⟨1, some ⟨⟨"accumulations", true⟩, 108⟩, "", ⟨"accumulations", true⟩, true⟩ :
          UserActivity).activity_type.allow_user_defined_activities = true) ∧
      ((⟨1, some ⟨⟨"accumulations", true⟩, 108⟩, "", ⟨"accumulations", true⟩, true⟩ :
          UserActivity).definition.all
          (fun d => decide (d.activity_type =
            (⟨1, some ⟨⟨"accumulations", true⟩, 108⟩, "", ⟨"accumulations", true⟩, true⟩ :
              UserActivity).activity_type)) = true)) :=
  ⟨by decide,
    userActivity_clean_invariant
      ⟨1, some ⟨⟨"accumulations", true⟩, 108⟩, "", ⟨"accumulations", true⟩, true⟩
      (by decide)⟩

end Dupr
